import Mathlib

/-!
Shallow embedding of the `grad_new` repository (SSCD copy-detection training
and evaluation code) and verification of claims about it.

Embedded source files:
  * `src/sscd/datasets/disc.py`  — `DISCTrainDataset`, `DISCEvalDataset`
  * `src/model.py`               — `Implementation`, `Backbone`, `Model` (with timm members)
  * `src/sscd/models/model.py`   — `Implementation`, `Backbone`, `Model` (without timm members)

External collaborators (`get_image_paths`, `read_ground_truth`, `default_loader`,
`knn_match_and_make_predictions`, `match_and_make_predictions`, `evaluate`,
image transforms, torch models) are modelled as abstract parameters; Python
floats are modelled as rationals; Python dicts returned to callers are
modelled as association lists.
-/

/-- Kinds of Python exceptions that the embedded code can raise. -/
inductive PyErr
  | assertionError
  | indexError
  | typeError
  deriving DecidableEq, Repr

/-- Python list indexing `xs[i]`: negative indices count from the end,
out-of-range indices raise `IndexError`. -/
def pyIndex {α : Type} (xs : List α) (i : Int) : Except PyErr α :=
  let j : Int := if i < 0 then i + (xs.length : Int) else i
  if 0 ≤ j then
    match xs[j.toNat]? with
    | some x => Except.ok x
    | none => Except.error PyErr.indexError
  else Except.error PyErr.indexError

/-- Value of a nonempty string of decimal digits; `none` otherwise. -/
def parseDigits (cs : List Char) : Option Nat :=
  if cs ≠ [] ∧ cs.all Char.isDigit then
    some (cs.foldl (fun n c => n * 10 + (c.toNat - ('0').toNat)) 0)
  else none

/-- Python `int(s)` on a string: optional sign followed by decimal digits;
`none` models the `ValueError` raised on malformed input. -/
def pyInt (s : String) : Option Int :=
  match s.data with
  | '-' :: rest => (parseDigits rest).map (fun n => -(n : Int))
  | '+' :: rest => (parseDigits rest).map (fun n => (n : Int))
  | cs => (parseDigits cs).map (fun n => (n : Int))

/-- Left-pad a string with zeros to the given width. -/
def padZeros (w : Nat) (s : String) : String :=
  if s.length < w then String.mk (List.replicate (w - s.length) '0') ++ s else s

/-- Python `"%0wd" % i`: decimal representation zero-padded to width `w`
(the sign, when present, counts towards the width). -/
def pyFormatD (w : Nat) (i : Int) : String :=
  if i < 0 then "-" ++ padZeros (w - 1) (Nat.repr i.natAbs)
  else padZeros w (Nat.repr i.toNat)

instance {ε α : Type} [DecidableEq ε] [DecidableEq α] : DecidableEq (Except ε α) :=
  fun x y =>
    match x, y with
    | .ok a, .ok b =>
      if h : a = b then isTrue (by rw [h]) else isFalse (fun hc => by cases hc; exact h rfl)
    | .ok _, .error _ => isFalse (fun hc => by cases hc)
    | .error _, .ok _ => isFalse (fun hc => by cases hc)
    | .error a, .error b =>
      if h : a = b then isTrue (by rw [h]) else isFalse (fun hc => by cases hc; exact h rfl)

/-- Python `os.path.basename` for POSIX paths: the part after the last slash. -/
def pyBasename (s : String) : String :=
  String.mk ((s.data.reverse.takeWhile (fun c => c ≠ '/')).reverse)

/-- Index of the last occurrence of `'.'` in a character list, if any. -/
def lastDotIdx : List Char → Option Nat
  | [] => none
  | c :: rest =>
    match lastDotIdx rest with
    | some i => some (i + 1)
    | none => if c = '.' then some 0 else none

/-- First component of Python `os.path.splitext` applied to a basename:
strip the extension at the last dot, unless every character before that
dot is itself a dot (so `".jpg"` keeps its name unchanged). -/
def splitextFst (s : String) : String :=
  match lastDotIdx s.data with
  | none => s
  | some d => if (s.data.take d).any (fun c => c ≠ '.') then String.mk (s.data.take d) else s

/-- Python `os.path.join(a, b)` for POSIX paths and a single right argument:
`b` absolute replaces `a`; otherwise they are joined with a separator unless
`a` is empty or already ends in one. -/
def pyJoin (a b : String) : String :=
  if b.data.head? = some '/' then b
  else if a.data = [] ∨ a.data.getLast? = some '/' then a ++ b
  else a ++ "/" ++ b

/-- Python `x or y` for `x` an optional float (`None`-able) and `y` a float:
returns `y` when `x` is `None` or numerically zero (falsy), else `x`. -/
def pyOrQ (a : Option ℚ) (b : ℚ) : ℚ :=
  match a with
  | none => b
  | some x => if x = 0 then b else x

namespace Disc

/-! ### `src/sscd/datasets/disc.py` -/

/-- `DISCEvalDataset.SPLIT_REF`. -/
def SPLIT_REF : Int := 0

/-- `DISCEvalDataset.SPLIT_QUERY`. -/
def SPLIT_QUERY : Int := 1

/-- `DISCEvalDataset.SPLIT_TRAIN`. -/
def SPLIT_TRAIN : Int := 2

/-- One metadata dict produced by `DISCEvalDataset.read_files`:
`dict(name=name, split=split, image_num=int(name[1:]), target=-1)`. -/
structure FileMeta where
  name : String
  split : Int
  image_num : Int
  target : Int
  deriving DecidableEq, Repr

/-- The `Metrics` record returned by the external `evaluate` collaborator,
as used by `retrieval_eval_splits` (floats as rationals; `recall_at_p90`
may be `None`). -/
structure Metrics where
  average_precision : ℚ
  recall_at_rank1 : ℚ
  recall_at_p90 : Option ℚ
  deriving DecidableEq, Repr

/-- Build the metadata list of `read_files` from the stripped file names:
`int(name[1:])` raises on a malformed name, so the result is optional. -/
def buildMeta (split : Int) : List String → Option (List FileMeta)
  | [] => some []
  | n :: rest =>
    match pyInt (n.drop 1), buildMeta split rest with
    | some num, some ms => some (⟨n, split, num, -1⟩ :: ms)
    | _, _ => none

/-- `DISCEvalDataset.read_files(path, split)`, parameterised by the external
`get_image_paths` collaborator: lists the directory, strips directory and
extension from each file to get its name, and builds the metadata dicts. -/
def read_files (get_image_paths : String → List String) (path : String) (split : Int) :
    Option (List String × List FileMeta) :=
  let files := get_image_paths path
  let names := files.map (fun file => splitextFst (pyBasename file))
  match buildMeta split names with
  | some metadata => some (files, metadata)
  | none => none

/-- State of a constructed `DISCEvalDataset` (image and ground-truth types
abstract; the loader is the module-level `default_loader`, passed to
`__getitem__` separately). -/
structure EvalState (Img GT : Type) where
  files : List String
  metadata : List FileMeta
  gt : GT
  transform : Option (Img → Img)

/-- `DISCEvalDataset.__init__`, parameterised by the external
`get_image_paths` and `read_ground_truth` collaborators. The optional
`query_path`, `ref_path`, `train_path` and `gt_path` arguments are
unconditionally overwritten from `path` before use, exactly as in the
source. `none` models a crash of `int(name[1:])` on a malformed name. -/
def evalInit {Img GT : Type} (get_image_paths : String → List String)
    (read_ground_truth : String → GT) (path : String)
    (transform : Option (Img → Img)) (include_train : Bool)
    (query_path ref_path train_path gt_path : Option String) :
    Option (EvalState Img GT) :=
  let query_path := pyJoin path "final_queries"
  let ref_path := pyJoin path "references"
  let train_path := if include_train then some (pyJoin path "train") else none
  let gt_path := pyJoin path "gt_1k.csv"
  match read_files get_image_paths ref_path SPLIT_REF with
  | none => none
  | some (files, metadata) =>
    match read_files get_image_paths query_path SPLIT_QUERY with
    | none => none
    | some (query_files, query_metadata) =>
      let files := files ++ query_files
      let metadata := metadata ++ query_metadata
      match train_path with
      | some tp =>
        match read_files get_image_paths tp SPLIT_TRAIN with
        | none => none
        | some (train_files, train_metadata) =>
          some ⟨files ++ train_files, metadata ++ train_metadata,
                read_ground_truth gt_path, transform⟩
      | none => some ⟨files, metadata, read_ground_truth gt_path, transform⟩

/-- The sample dict returned by `DISCEvalDataset.__getitem__`:
`{"input": img, "instance_id": idx}` updated with `metadata[idx]`
(whose keys are `name`, `split`, `image_num`, `target`). -/
structure EvalSample (Img : Type) where
  input : Img
  instance_id : Int
  name : String
  split : Int
  image_num : Int
  target : Int

/-- `DISCEvalDataset.__getitem__(idx)`: `default_loader` is passed in as
`loader`; list accesses follow Python indexing (no bounds assertion here). -/
def evalGetitem {Img GT : Type} (loader : String → Img) (e : EvalState Img GT)
    (idx : Int) : Except PyErr (EvalSample Img) := do
  let filename ← pyIndex e.files idx
  let img := loader filename
  let img := match e.transform with
    | some t => t img
    | none => img
  let md ← pyIndex e.metadata idx
  pure ⟨img, idx, md.name, md.split, md.image_num, md.target⟩

/-- `DISCEvalDataset.__len__`. -/
def evalLen {Img GT : Type} (e : EvalState Img GT) : Nat :=
  e.files.length

/-- Numpy boolean-mask selection `xs[mask]` (for equal-length operands). -/
def maskSelect {α : Type} (xs : List α) (mask : List Bool) : List α :=
  ((xs.zip mask).filter (fun p => p.2)).map (fun p => p.1)

/-- Rows of `xs` at the positions where `split` holds the value `v`
(the claim-level description of boolean-mask selection by split value). -/
def selectBySplit {α : Type} (xs : List α) (split : List Int) (v : Int) : List α :=
  ((xs.zip split).filter (fun p => p.2 == v)).map (fun p => p.1)

/-- `DISCEvalDataset.retrieval_eval_splits`, parameterised by the external
collaborators `knn_match_and_make_predictions`, `match_and_make_predictions`
(each taking query embeddings, query names, ref embeddings, ref names, a
count — `k` resp. `num_results` — and `ngpu`) and `evaluate` (taking the
stored ground truth and the predictions). Embedding rows have abstract type
`α`, predictions abstract type `β`, ground truth abstract type `γ`. The
returned Python dict is an association list. -/
def retrieval_eval_splits {α β γ : Type}
    (knn_match_and_make_predictions : List α → List String → List α → List String → Nat → Int → β)
    (match_and_make_predictions : List α → List String → List α → List String → Nat → Int → β)
    (evaluate : γ → β → Metrics) (gt : γ)
    (query_ids : List Int) (query_embeddings : List α)
    (ref_ids : List Int) (ref_embeddings : List α)
    (use_gpu : Bool) (k : Nat) (global_candidates : Bool) : List (String × ℚ) :=
  let query_names := query_ids.map (fun i => "Q" ++ pyFormatD 5 i)
  let ref_names := ref_ids.map (fun i => "R" ++ pyFormatD 6 i)
  let predictions :=
    if global_candidates then
      match_and_make_predictions query_embeddings query_names ref_embeddings ref_names
        (k * query_names.length) (if use_gpu then -1 else 0)
    else
      knn_match_and_make_predictions query_embeddings query_names ref_embeddings ref_names
        k (if use_gpu then -1 else 0)
  let results := evaluate gt predictions
  [("uAP", results.average_precision),
   ("accuracy-at-1", results.recall_at_rank1),
   ("recall-at-p90", pyOrQ results.recall_at_p90 0)]

/-- `retrieval_eval_splits` at its Python default arguments
`use_gpu=False, k=10, global_candidates=False`. -/
def retrieval_eval_splits_defaults {α β γ : Type}
    (knn_match_and_make_predictions : List α → List String → List α → List String → Nat → Int → β)
    (match_and_make_predictions : List α → List String → List α → List String → Nat → Int → β)
    (evaluate : γ → β → Metrics) (gt : γ)
    (query_ids : List Int) (query_embeddings : List α)
    (ref_ids : List Int) (ref_embeddings : List α) : List (String × ℚ) :=
  retrieval_eval_splits knn_match_and_make_predictions match_and_make_predictions
    evaluate gt query_ids query_embeddings ref_ids ref_embeddings false 10 false

/-- `DISCEvalDataset.retrieval_eval`: masks the rows of the embedding array
and target array by split value and delegates to `retrieval_eval_splits`.
The embedding array is a list of rows. -/
def retrieval_eval {α β γ : Type}
    (knn_match_and_make_predictions : List α → List String → List α → List String → Nat → Int → β)
    (match_and_make_predictions : List α → List String → List α → List String → Nat → Int → β)
    (evaluate : γ → β → Metrics) (gt : γ)
    (embedding_array : List α) (targets : List Int) (split : List Int)
    (use_gpu : Bool) (k : Nat) (global_candidates : Bool) : List (String × ℚ) :=
  let query_mask := split.map (fun s => s == SPLIT_QUERY)
  let ref_mask := split.map (fun s => s == SPLIT_REF)
  let query_ids := maskSelect targets query_mask
  let query_embeddings := maskSelect embedding_array query_mask
  let ref_ids := maskSelect targets ref_mask
  let ref_embeddings := maskSelect embedding_array ref_mask
  retrieval_eval_splits knn_match_and_make_predictions match_and_make_predictions
    evaluate gt query_ids query_embeddings ref_ids ref_embeddings
    use_gpu k global_candidates

/-! ### `DISCTrainDataset` -/

/-- The record returned in supervised mode:
`{"input0": img_0, "input1": img_1, "instance_id": idx}`. -/
structure SupRecord (Img : Type) where
  input0 : Img
  input1 : Img
  instance_id : Int

/-- The record built in unsupervised mode: `{"input": img, "instance_id": idx}`
(before the optional record-level transform). -/
structure UnsupRecord (Img : Type) where
  input : Img
  instance_id : Int

/-- The record returned by `DISCTrainDataset.__getitem__`. -/
inductive TrainRecord (Img : Type)
  | sup : SupRecord Img → TrainRecord Img
  | unsup : UnsupRecord Img → TrainRecord Img

/-- State of a constructed `DISCTrainDataset`. The dynamically-typed
`self.img_transform` attribute is an image transform in supervised mode
and an optional record transform (`RepeatedAugmentationTransform`) in
unsupervised mode, so it is modelled by one field per mode. -/
structure TrainState (Img : Type) where
  supervised : Bool
  files : List String
  query_paths : List String
  ref_paths : List String
  loader : String → Img
  img_transform_img : Img → Img
  img_transform_rec : Option (UnsupRecord Img → UnsupRecord Img)

/-- `DISCTrainDataset.__len__`: the number of query paths when supervised,
else the number of training files. -/
def trainLen {Img : Type} (d : TrainState Img) : Nat :=
  if d.supervised then d.query_paths.length else d.files.length

/-- `DISCTrainDataset.__getitem__(idx)`: asserts `0 <= idx < len(self)`,
then loads and transforms the images for the record. -/
def trainGetitem {Img : Type} (d : TrainState Img) (idx : Int) :
    Except PyErr (TrainRecord Img) :=
  if 0 ≤ idx ∧ idx < (trainLen d : Int) then
    if d.supervised then do
      let p ← pyIndex d.query_paths idx
      let rp ← pyIndex d.ref_paths idx
      let img := d.loader p
      let ref_img := d.loader rp
      let img_0 := d.img_transform_img img
      let img_1 := d.img_transform_img ref_img
      Except.ok (TrainRecord.sup ⟨img_0, img_1, idx⟩)
    else do
      let f ← pyIndex d.files idx
      let record : UnsupRecord Img := ⟨d.loader f, idx⟩
      let record := match d.img_transform_rec with
        | some t => t record
        | none => record
      Except.ok (TrainRecord.unsup record)
  else Except.error PyErr.assertionError

end Disc

namespace ModelPy

/-! ### `src/model.py` -/

/-- The `Implementation` enum of `src/model.py`. -/
inductive Implementation
  | CLASSY_VISION
  | TORCHVISION
  | TIMM
  deriving DecidableEq, Repr

/-- Torchvision constructor functions imported by `src/model.py`. -/
inductive TVCtor
  | efficientnet_b0
  | mobilenet_v3_large
  | regnet_x_800mf
  | regnet_y_800mf
  | resnet18
  | resnet50
  | resnext101_32x8d
  deriving DecidableEq, Repr

/-- The first slot of a `Backbone` member's value tuple: either a model-name
string or a torchvision constructor function. -/
inductive ModelRef
  | str : String → ModelRef
  | fn : TVCtor → ModelRef
  deriving DecidableEq, Repr

/-- The `Backbone` enum of `src/model.py` (the variant with timm members). -/
inductive Backbone
  | CV_RESNET18
  | CV_RESNET50
  | CV_RESNEXT101
  | TV_EFFICIENTNET_B0
  | TV_MOBILENETV3
  | TV_REGNET_X_800MF
  | TV_REGNET_Y_800MF
  | TV_RESNET18
  | TV_RESNET50
  | TV_RESNEXT101
  | TIMM_RESNET18
  | TIMM_EFFICIENTNET
  | TIMM_MOBILENETV3
  deriving DecidableEq, Repr

/-- `Backbone.value` of `src/model.py`: `(model ref, feature dims, implementation)`. -/
def Backbone.value : Backbone → ModelRef × Nat × Implementation
  | .CV_RESNET18 => (.str "resnet18", 512, .CLASSY_VISION)
  | .CV_RESNET50 => (.str "resnet50", 2048, .CLASSY_VISION)
  | .CV_RESNEXT101 => (.str "resnext101_32x4d", 2048, .CLASSY_VISION)
  | .TV_EFFICIENTNET_B0 => (.fn .efficientnet_b0, 1280, .TORCHVISION)
  | .TV_MOBILENETV3 => (.fn .mobilenet_v3_large, 1280, .TORCHVISION)
  | .TV_REGNET_X_800MF => (.fn .regnet_x_800mf, 672, .TORCHVISION)
  | .TV_REGNET_Y_800MF => (.fn .regnet_y_800mf, 784, .TORCHVISION)
  | .TV_RESNET18 => (.fn .resnet18, 512, .TORCHVISION)
  | .TV_RESNET50 => (.fn .resnet50, 2048, .TORCHVISION)
  | .TV_RESNEXT101 => (.fn .resnext101_32x8d, 2048, .TORCHVISION)
  | .TIMM_RESNET18 => (.str "resnet18", 512, .TIMM)
  | .TIMM_EFFICIENTNET => (.str "efficientbet_b0", 1280, .TORCHVISION)
  | .TIMM_MOBILENETV3 => (.str "mobilenetv3_large_100", 1280, .TORCHVISION)

/-- `Backbone.name` (Python's enum member name attribute). -/
def Backbone.name : Backbone → String
  | .CV_RESNET18 => "CV_RESNET18"
  | .CV_RESNET50 => "CV_RESNET50"
  | .CV_RESNEXT101 => "CV_RESNEXT101"
  | .TV_EFFICIENTNET_B0 => "TV_EFFICIENTNET_B0"
  | .TV_MOBILENETV3 => "TV_MOBILENETV3"
  | .TV_REGNET_X_800MF => "TV_REGNET_X_800MF"
  | .TV_REGNET_Y_800MF => "TV_REGNET_Y_800MF"
  | .TV_RESNET18 => "TV_RESNET18"
  | .TV_RESNET50 => "TV_RESNET50"
  | .TV_RESNEXT101 => "TV_RESNEXT101"
  | .TIMM_RESNET18 => "TIMM_RESNET18"
  | .TIMM_EFFICIENTNET => "TIMM_EFFICIENTNET"
  | .TIMM_MOBILENETV3 => "TIMM_MOBILENETV3"

/-- The members of `Backbone` in declaration order (Python's iteration order). -/
def Backbone.members : List Backbone :=
  [.CV_RESNET18, .CV_RESNET50, .CV_RESNEXT101,
   .TV_EFFICIENTNET_B0, .TV_MOBILENETV3, .TV_REGNET_X_800MF, .TV_REGNET_Y_800MF,
   .TV_RESNET18, .TV_RESNET50, .TV_RESNEXT101,
   .TIMM_RESNET18, .TIMM_EFFICIENTNET, .TIMM_MOBILENETV3]

/-- The model object `Backbone.build` returns, tagged by the branch that
produced it. -/
inductive BuiltModel
  | classy : ModelRef → BuiltModel
  | torchvision : TVCtor → Nat → BuiltModel
  | timm : ModelRef → Bool → BuiltModel
  deriving DecidableEq, Repr

/-- `Backbone.build(dims)` of `src/model.py`: dispatch on the implementation
kind; the torchvision branch calls `self.value[0]` as a constructor, which
raises `TypeError` when that slot holds a string rather than a function;
the final line raises `AssertionError` for an unhandled implementation. -/
def Backbone.build (b : Backbone) (dims : Nat) : Except PyErr BuiltModel :=
  let impl := b.value.2.2
  if impl = Implementation.CLASSY_VISION then
    Except.ok (BuiltModel.classy b.value.1)
  else if impl = Implementation.TORCHVISION then
    match b.value.1 with
    | .fn c => Except.ok (BuiltModel.torchvision c dims)
    | .str _ => Except.error PyErr.typeError
  else if impl = Implementation.TIMM then
    Except.ok (BuiltModel.timm b.value.1 true)
  else Except.error PyErr.assertionError

/-- Default value of a registered CLI argument. -/
inductive ArgDefault
  | str : String → ArgDefault
  | int : Int → ArgDefault
  deriving DecidableEq, Repr

/-- The `type=` conversion of a registered CLI argument. -/
inductive ArgType
  | int
  | float
  deriving DecidableEq, Repr

/-- One `parser.add_argument` registration: its flag name, default value,
optional `choices` list, and optional `type` conversion. -/
structure ArgSpec where
  flag : String
  dflt : ArgDefault
  choices : Option (List String)
  argType : Option ArgType
  deriving DecidableEq, Repr

/-- `Model.add_arguments` of `src/model.py`: the argument-group title and
the arguments it registers, in order. -/
def Model.add_arguments : String × List ArgSpec :=
  ("Model",
   [⟨"--backbone", .str "TV_RESNET18", some (Backbone.members.map Backbone.name), none⟩,
    ⟨"--dims", .int 512, none, some .int⟩,
    ⟨"--pool_param", .int 3, none, some .float⟩])

end ModelPy

namespace SscdModelPy

/-! ### `src/sscd/models/model.py` -/

/-- The `Implementation` enum of `src/sscd/models/model.py`. -/
inductive Implementation
  | CLASSY_VISION
  | TORCHVISION
  deriving DecidableEq, Repr

/-- The `Backbone` enum of `src/sscd/models/model.py`. -/
inductive Backbone
  | CV_RESNET18
  | CV_RESNET50
  | CV_RESNEXT101
  | TV_EFFICIENTNET_B0
  | TV_MOBILENETV3
  | TV_REGNET_X_800MF
  | TV_REGNET_Y_800MF
  | TV_RESNET18
  | TV_RESNET50
  | TV_RESNEXT101
  deriving DecidableEq, Repr

/-- `Backbone.value` of `src/sscd/models/model.py`. -/
def Backbone.value : Backbone → ModelPy.ModelRef × Nat × Implementation
  | .CV_RESNET18 => (.str "resnet18", 512, .CLASSY_VISION)
  | .CV_RESNET50 => (.str "resnet50", 2048, .CLASSY_VISION)
  | .CV_RESNEXT101 => (.str "resnext101_32x4d", 2048, .CLASSY_VISION)
  | .TV_EFFICIENTNET_B0 => (.fn .efficientnet_b0, 1280, .TORCHVISION)
  | .TV_MOBILENETV3 => (.fn .mobilenet_v3_large, 1280, .TORCHVISION)
  | .TV_REGNET_X_800MF => (.fn .regnet_x_800mf, 672, .TORCHVISION)
  | .TV_REGNET_Y_800MF => (.fn .regnet_y_800mf, 784, .TORCHVISION)
  | .TV_RESNET18 => (.fn .resnet18, 512, .TORCHVISION)
  | .TV_RESNET50 => (.fn .resnet50, 2048, .TORCHVISION)
  | .TV_RESNEXT101 => (.fn .resnext101_32x8d, 2048, .TORCHVISION)

/-- `Backbone.name` of `src/sscd/models/model.py`. -/
def Backbone.name : Backbone → String
  | .CV_RESNET18 => "CV_RESNET18"
  | .CV_RESNET50 => "CV_RESNET50"
  | .CV_RESNEXT101 => "CV_RESNEXT101"
  | .TV_EFFICIENTNET_B0 => "TV_EFFICIENTNET_B0"
  | .TV_MOBILENETV3 => "TV_MOBILENETV3"
  | .TV_REGNET_X_800MF => "TV_REGNET_X_800MF"
  | .TV_REGNET_Y_800MF => "TV_REGNET_Y_800MF"
  | .TV_RESNET18 => "TV_RESNET18"
  | .TV_RESNET50 => "TV_RESNET50"
  | .TV_RESNEXT101 => "TV_RESNEXT101"

/-- The members of `Backbone` in declaration order. -/
def Backbone.members : List Backbone :=
  [.CV_RESNET18, .CV_RESNET50, .CV_RESNEXT101,
   .TV_EFFICIENTNET_B0, .TV_MOBILENETV3, .TV_REGNET_X_800MF, .TV_REGNET_Y_800MF,
   .TV_RESNET18, .TV_RESNET50, .TV_RESNEXT101]

/-- `Backbone.build(dims)` of `src/sscd/models/model.py`: classy-vision and
torchvision branches, then the `AssertionError` for unhandled kinds. -/
def Backbone.build (b : Backbone) (dims : Nat) : Except PyErr ModelPy.BuiltModel :=
  let impl := b.value.2.2
  if impl = Implementation.CLASSY_VISION then
    Except.ok (ModelPy.BuiltModel.classy b.value.1)
  else if impl = Implementation.TORCHVISION then
    match b.value.1 with
    | .fn c => Except.ok (ModelPy.BuiltModel.torchvision c dims)
    | .str _ => Except.error PyErr.typeError
  else Except.error PyErr.assertionError

/-- `Model.add_arguments` of `src/sscd/models/model.py`. -/
def Model.add_arguments : String × List ModelPy.ArgSpec :=
  ("Model",
   [⟨"--backbone", .str "TV_RESNET18", some (Backbone.members.map Backbone.name), none⟩,
    ⟨"--dims", .int 512, none, some .int⟩,
    ⟨"--pool_param", .int 3, none, some .float⟩])

end SscdModelPy

open Disc

/-- Concrete directory listing used by witnesses: two reference images and
one query image under the base path `/d`. -/
def gipW : String → List String := fun p =>
  if p = "/d/references" then ["/d/references/R000001.jpg", "/d/references/R000002.jpg"]
  else if p = "/d/final_queries" then ["/d/final_queries/Q00001.jpg"]
  else []

/-- Concrete ground-truth reader used by witnesses. -/
def rgtW : String → Unit := fun _ => ()

/-- The dataset state `evalInit gipW rgtW "/d" none false …` produces. -/
def evalStateW : EvalState Unit Unit :=
  ⟨["/d/references/R000001.jpg", "/d/references/R000002.jpg", "/d/final_queries/Q00001.jpg"],
   [⟨"R000001", 0, 1, -1⟩, ⟨"R000002", 0, 2, -1⟩, ⟨"Q00001", 1, 1, -1⟩],
   (), none⟩

/-- Witness state for claim C4: a supervised train dataset with one query
and one reference path. -/
def trainStateW : TrainState Unit :=
  ⟨true, [], ["q.jpg"], ["r.jpg"], fun _ => (), id, none⟩

/-- Shared helper: the dictionary returned by `retrieval_eval_splits`, key by
key, for some predictions value handed to `evaluate`. -/
theorem retrieval_eval_splits_lookup {α β γ : Type}
    (knn mf : List α → List String → List α → List String → Nat → Int → β)
    (ev : γ → β → Metrics) (gt : γ)
    (qids : List Int) (qe : List α) (rids : List Int) (rembs : List α)
    (ug : Bool) (k : Nat) (gc : Bool) :
    ∃ predictions : β,
      (retrieval_eval_splits knn mf ev gt qids qe rids rembs ug k gc).map Prod.fst =
        ["uAP", "accuracy-at-1", "recall-at-p90"] ∧
      (retrieval_eval_splits knn mf ev gt qids qe rids rembs ug k gc).lookup "uAP" =
        some (ev gt predictions).average_precision ∧
      (retrieval_eval_splits knn mf ev gt qids qe rids rembs ug k gc).lookup "accuracy-at-1" =
        some (ev gt predictions).recall_at_rank1 ∧
      (retrieval_eval_splits knn mf ev gt qids qe rids rembs ug k gc).lookup "recall-at-p90" =
        some (pyOrQ (ev gt predictions).recall_at_p90 0) := by
  refine ⟨if gc then
      mf qe (qids.map (fun i => "Q" ++ pyFormatD 5 i)) rembs
        (rids.map (fun i => "R" ++ pyFormatD 6 i))
        (k * (qids.map (fun i => "Q" ++ pyFormatD 5 i)).length) (if ug then -1 else 0)
    else
      knn qe (qids.map (fun i => "Q" ++ pyFormatD 5 i)) rembs
        (rids.map (fun i => "R" ++ pyFormatD 6 i)) k (if ug then -1 else 0), ?_, ?_, ?_, ?_⟩ <;>
    cases gc <;> rfl

/-- Claim C1: every call to `retrieval_eval_splits` returns a dictionary with
exactly the keys `"uAP"`, `"accuracy-at-1"` and `"recall-at-p90"`, whose
values come from the `evaluate` result on the stored ground truth and the
computed predictions: `"uAP"` is `results.average_precision`,
`"accuracy-at-1"` is `results.recall_at_rank1`, and `"recall-at-p90"` is
derived from `results.recall_at_p90` (Python `or 0.0`). -/
theorem retrieval_eval_splits_metrics_dict {α β γ : Type}
    (knn mf : List α → List String → List α → List String → Nat → Int → β)
    (ev : γ → β → Metrics) (gt : γ)
    (qids : List Int) (qe : List α) (rids : List Int) (rembs : List α)
    (ug : Bool) (k : Nat) (gc : Bool) :
    ∃ predictions : β,
      (retrieval_eval_splits knn mf ev gt qids qe rids rembs ug k gc).map Prod.fst =
        ["uAP", "accuracy-at-1", "recall-at-p90"] ∧
      (retrieval_eval_splits knn mf ev gt qids qe rids rembs ug k gc).lookup "uAP" =
        some (ev gt predictions).average_precision ∧
      (retrieval_eval_splits knn mf ev gt qids qe rids rembs ug k gc).lookup "accuracy-at-1" =
        some (ev gt predictions).recall_at_rank1 ∧
      (retrieval_eval_splits knn mf ev gt qids qe rids rembs ug k gc).lookup "recall-at-p90" =
        some (pyOrQ (ev gt predictions).recall_at_p90 0) := by
  obtain ⟨p, h0, h1, h2, h3⟩ :=
    retrieval_eval_splits_lookup knn mf ev gt qids qe rids rembs ug k gc
  exact ⟨p, h0, h1, h2, h3⟩

/-- Claim C2: `retrieval_eval_splits` delegates matching and metrics entirely
to the external collaborators: with `global_candidates` false the predictions
come from `knn_match_and_make_predictions` at the given `k`; with it true they
come from `match_and_make_predictions` at `num_results = k * len(query_names)`;
in both cases `ngpu` is `-1` if `use_gpu` else `0`, and the predictions are
passed to `evaluate` together with the stored ground truth; the Python
defaults are `use_gpu=False, k=10, global_candidates=False`. -/
theorem retrieval_eval_splits_delegates {α β γ : Type}
    (knn mf : List α → List String → List α → List String → Nat → Int → β)
    (ev : γ → β → Metrics) (gt : γ)
    (qids : List Int) (qe : List α) (rids : List Int) (rembs : List α)
    (ug : Bool) (k : Nat) :
    (∀ gc : Bool,
      retrieval_eval_splits knn mf ev gt qids qe rids rembs ug k gc =
        (let qn := qids.map (fun i => "Q" ++ pyFormatD 5 i)
         let rn := rids.map (fun i => "R" ++ pyFormatD 6 i)
         let ngpu : Int := if ug then -1 else 0
         let predictions :=
           if gc then mf qe qn rembs rn (k * qn.length) ngpu
           else knn qe qn rembs rn k ngpu
         let results := ev gt predictions
         [("uAP", results.average_precision),
          ("accuracy-at-1", results.recall_at_rank1),
          ("recall-at-p90", pyOrQ results.recall_at_p90 0)])) ∧
    retrieval_eval_splits_defaults knn mf ev gt qids qe rids rembs =
      retrieval_eval_splits knn mf ev gt qids qe rids rembs false 10 false := by
  exact ⟨fun gc => by cases gc <;> rfl, rfl⟩

/-- Claim C9: in the dictionary returned by `retrieval_eval_splits`, the
`"recall-at-p90"` value is `0` whenever the `evaluate` result's
`recall_at_p90` is `None` or any falsy value (for a float, `0`), and is
`results.recall_at_p90` itself otherwise, while `"uAP"` and
`"accuracy-at-1"` are passed through with no such substitution. -/
theorem retrieval_eval_splits_p90_fallback {α β γ : Type}
    (knn mf : List α → List String → List α → List String → Nat → Int → β)
    (ev : γ → β → Metrics) (gt : γ)
    (qids : List Int) (qe : List α) (rids : List Int) (rembs : List α)
    (ug : Bool) (k : Nat) (gc : Bool) :
    ∃ predictions : β,
      (retrieval_eval_splits knn mf ev gt qids qe rids rembs ug k gc).lookup "recall-at-p90" =
        some (pyOrQ (ev gt predictions).recall_at_p90 0) ∧
      (retrieval_eval_splits knn mf ev gt qids qe rids rembs ug k gc).lookup "uAP" =
        some (ev gt predictions).average_precision ∧
      (retrieval_eval_splits knn mf ev gt qids qe rids rembs ug k gc).lookup "accuracy-at-1" =
        some (ev gt predictions).recall_at_rank1 ∧
      pyOrQ none 0 = 0 ∧ pyOrQ (some 0) 0 = 0 ∧
      (∀ x : ℚ, x ≠ 0 → pyOrQ (some x) 0 = x) := by
  obtain ⟨p, _, h1, h2, h3⟩ :=
    retrieval_eval_splits_lookup knn mf ev gt qids qe rids rembs ug k gc
  exact ⟨p, h3, h1, h2, rfl, by simp [pyOrQ], fun x hx => by simp [pyOrQ, hx]⟩

/-- Shared helper: numpy selection by the boolean mask `split == v` equals
selection of the rows whose split value is `v`. -/
theorem maskSelect_map_eq {α : Type} (xs : List α) (split : List Int) (v : Int) :
    maskSelect xs (split.map (fun s => s == v)) = selectBySplit xs split v := by
  induction xs generalizing split with
  | nil => simp [maskSelect, selectBySplit]
  | cons x xs ih =>
    cases split with
    | nil => simp [maskSelect, selectBySplit]
    | cons s ss =>
      simp only [maskSelect, selectBySplit, List.map_cons, List.zip_cons_cons,
        List.filter_cons] at ih ⊢
      cases hsv : (s == v) with
      | true => simpa [hsv] using ih ss
      | false => simpa [hsv] using ih ss

/-- Shared helper: membership in `selectBySplit` is exactly contribution by a
position whose split value is `v`. -/
theorem mem_selectBySplit_iff {α : Type} (xs : List α) (split : List Int) (v : Int)
    (x : α) (hlen : xs.length = split.length) :
    x ∈ selectBySplit xs split v ↔
      ∃ i, ∃ (h1 : i < xs.length) (h2 : i < split.length),
        xs[i] = x ∧ split[i] = v := by
  constructor
  · intro hx
    simp only [selectBySplit, List.mem_map, List.mem_filter] at hx
    obtain ⟨⟨a, s⟩, ⟨hz, hf⟩, rfl⟩ := hx
    rw [List.mem_iff_getElem] at hz
    obtain ⟨i, hi, hgi⟩ := hz
    have hxl : i < xs.length := lt_of_lt_of_le hi (by rw [List.length_zip]; omega)
    have hsl : i < split.length := lt_of_lt_of_le hi (by rw [List.length_zip]; omega)
    have hpair : (xs.zip split)[i] = (xs[i], split[i]) := List.getElem_zip
    rw [hgi] at hpair
    have hfst : a = xs[i] := congrArg Prod.fst hpair
    have hsnd : s = split[i] := congrArg Prod.snd hpair
    refine ⟨i, hxl, hsl, hfst.symm, ?_⟩
    rw [← hsnd]
    simpa using hf
  · rintro ⟨i, h1, h2, hx, hs⟩
    simp only [selectBySplit, List.mem_map, List.mem_filter]
    refine ⟨(x, v), ⟨?_, by simp⟩, rfl⟩
    rw [List.mem_iff_getElem]
    have hiz : i < (xs.zip split).length := by rw [List.length_zip]; omega
    exact ⟨i, hiz, by rw [List.getElem_zip]; rw [hx, hs]⟩

/-- Claim C3: `retrieval_eval` uses exactly the rows whose split value is
`SPLIT_QUERY` (1) as queries and exactly the rows whose split value is
`SPLIT_REF` (0) as references (rows with any other split value contribute to
neither), formats query names as `"Q%05d"` and reference names as `"R%06d"`
from the corresponding target ids, and delegates matching and metrics to the
external collaborators via `retrieval_eval_splits`. -/
theorem retrieval_eval_selects_by_split {α β γ : Type}
    (knn mf : List α → List String → List α → List String → Nat → Int → β)
    (ev : γ → β → Metrics) (gt : γ)
    (rows : List α) (targets : List Int) (split : List Int)
    (ug : Bool) (k : Nat) (gc : Bool)
    (h1 : targets.length = split.length) (h2 : rows.length = split.length) :
    retrieval_eval knn mf ev gt rows targets split ug k gc =
      retrieval_eval_splits knn mf ev gt
        (selectBySplit targets split SPLIT_QUERY) (selectBySplit rows split SPLIT_QUERY)
        (selectBySplit targets split SPLIT_REF) (selectBySplit rows split SPLIT_REF)
        ug k gc ∧
    retrieval_eval knn mf ev gt rows targets split ug k gc =
      (let query_ids := selectBySplit targets split SPLIT_QUERY
       let query_names := query_ids.map (fun i => "Q" ++ pyFormatD 5 i)
       let ref_names := (selectBySplit targets split SPLIT_REF).map
         (fun i => "R" ++ pyFormatD 6 i)
       let ngpu : Int := if ug then -1 else 0
       let predictions :=
         if gc then
           mf (selectBySplit rows split SPLIT_QUERY) query_names
             (selectBySplit rows split SPLIT_REF) ref_names
             (k * query_names.length) ngpu
         else
           knn (selectBySplit rows split SPLIT_QUERY) query_names
             (selectBySplit rows split SPLIT_REF) ref_names k ngpu
       let results := ev gt predictions
       [("uAP", results.average_precision),
        ("accuracy-at-1", results.recall_at_rank1),
        ("recall-at-p90", pyOrQ results.recall_at_p90 0)]) ∧
    (∀ t : Int, ∀ v : Int, t ∈ selectBySplit targets split v ↔
      ∃ i, ∃ (ha : i < targets.length) (hb : i < split.length),
        targets[i] = t ∧ split[i] = v) ∧
    (∀ r : α, ∀ v : Int, r ∈ selectBySplit rows split v ↔
      ∃ i, ∃ (ha : i < rows.length) (hb : i < split.length),
        rows[i] = r ∧ split[i] = v) := by
  refine ⟨?_, ?_, fun t v => mem_selectBySplit_iff targets split v t h1,
    fun r v => mem_selectBySplit_iff rows split v r h2⟩
  · simp only [retrieval_eval, maskSelect_map_eq]
  · simp only [retrieval_eval, maskSelect_map_eq]
    cases gc <;> rfl

/-- Shared helper: Python indexing at a nonnegative in-range index returns
the list element there. -/
theorem pyIndex_ok_of_lt {α : Type} (xs : List α) (i : Int) (h0 : 0 ≤ i)
    (h1 : i.toNat < xs.length) :
    pyIndex xs i = Except.ok xs[i.toNat] := by
  have hni : ¬ i < 0 := by omega
  simp [pyIndex, hni, h0, List.getElem?_eq_getElem h1]

/-- Shared helper: `bind` on an `ok` value applies the continuation. -/
theorem exceptBind_ok {ε α β : Type} (a : α) (f : α → Except ε β) :
    (Except.ok (ε := ε) a >>= f) = f a := rfl

/-- Shared helper: `bind` on an `error` value propagates the error. -/
theorem exceptBind_err {ε α β : Type} (e : ε) (f : α → Except ε β) :
    (Except.error (α := α) e >>= f) = Except.error (α := β) e := rfl

/-- Shared helper: Python indexing never raises `AssertionError` (its failure
mode is `IndexError`). -/
theorem pyIndex_ne_assertion {α : Type} (xs : List α) (i : Int) :
    pyIndex xs i ≠ Except.error PyErr.assertionError := by
  intro hc
  unfold pyIndex at hc
  by_cases h0 : (0 : Int) ≤ if i < 0 then i + (xs.length : Int) else i
  · rw [if_pos h0] at hc
    cases hm : xs[(if i < 0 then i + (xs.length : Int) else i).toNat]? with
    | some x => rw [hm] at hc; cases hc
    | none =>
      rw [hm] at hc
      exact PyErr.noConfusion (Except.error.inj hc)
  · rw [if_neg h0] at hc
    exact PyErr.noConfusion (Except.error.inj hc)

/-- Shared helper: `DISCEvalDataset.__getitem__` never raises
`AssertionError`. -/
theorem evalGetitem_ne_assertion {Img GT : Type} (loader : String → Img)
    (e : EvalState Img GT) (j : Int) :
    evalGetitem loader e j ≠ Except.error PyErr.assertionError := by
  intro hc
  unfold evalGetitem at hc
  cases hf : pyIndex e.files j with
  | error er =>
    rw [hf, exceptBind_err] at hc
    cases hc
    exact pyIndex_ne_assertion e.files j hf
  | ok f =>
    rw [hf, exceptBind_ok] at hc
    cases hm : pyIndex e.metadata j with
    | error er =>
      rw [hm, exceptBind_err] at hc
      cases hc
      exact pyIndex_ne_assertion e.metadata j hm
    | ok m =>
      rw [hm, exceptBind_ok] at hc
      exact Except.noConfusion hc

/-- Claim C4: `DISCTrainDataset.__getitem__` fails its assertion exactly when
`idx` is outside `0 <= idx < len(self)` and returns a record for every
in-range `idx` (given the init invariant that in supervised mode
`ref_paths` and `query_paths` have equal length), and this bounds assertion
is the only one in the dataset `__getitem__` operations:
`DISCEvalDataset.__getitem__` never raises `AssertionError`. -/
theorem trainGetitem_bounds_assertion {Img : Type} (d : TrainState Img) (idx : Int)
    (h : d.supervised = true → d.ref_paths.length = d.query_paths.length) :
    (trainGetitem d idx = Except.error PyErr.assertionError ↔
      ¬ (0 ≤ idx ∧ idx < (trainLen d : Int))) ∧
    ((0 ≤ idx ∧ idx < (trainLen d : Int)) →
      ∃ r, trainGetitem d idx = Except.ok r) ∧
    (∀ (loader : String → Img) (e : EvalState Img Unit) (j : Int),
      evalGetitem loader e j ≠ Except.error PyErr.assertionError) := by
  have hok : (0 ≤ idx ∧ idx < (trainLen d : Int)) →
      ∃ r, trainGetitem d idx = Except.ok r := by
    rintro ⟨ha, hb⟩
    unfold trainGetitem
    rw [if_pos ⟨ha, hb⟩]
    cases hs : d.supervised with
    | true =>
      have hlen : trainLen d = d.query_paths.length := by simp [trainLen, hs]
      have hq : idx.toNat < d.query_paths.length := by
        rw [hlen] at hb; omega
      have hr : idx.toNat < d.ref_paths.length := by rw [h hs]; exact hq
      rw [if_pos rfl]
      rw [pyIndex_ok_of_lt d.query_paths idx ha hq,
        pyIndex_ok_of_lt d.ref_paths idx ha hr]
      exact ⟨_, rfl⟩
    | false =>
      have hlen : trainLen d = d.files.length := by simp [trainLen, hs]
      have hfl : idx.toNat < d.files.length := by rw [hlen] at hb; omega
      rw [if_neg Bool.false_ne_true]
      rw [pyIndex_ok_of_lt d.files idx ha hfl]
      exact ⟨_, rfl⟩
  refine ⟨⟨?_, ?_⟩, hok, fun loader e j => evalGetitem_ne_assertion loader e j⟩
  · intro he hin
    obtain ⟨r, hr⟩ := hok hin
    rw [hr] at he
    cases he
  · intro hn
    unfold trainGetitem
    rw [if_neg hn]

/-- Witness for claim C4: at the concrete supervised dataset `trainStateW`,
index 0 is in range and yields a record, and the assertion
characterisation holds there. -/
theorem trainGetitem_bounds_assertion_witness :
    (trainStateW.supervised = true →
      trainStateW.ref_paths.length = trainStateW.query_paths.length) ∧
    ((trainGetitem trainStateW 0 = Except.error PyErr.assertionError ↔
      ¬ ((0 : Int) ≤ 0 ∧ (0 : Int) < (trainLen trainStateW : Int))) ∧
    (((0 : Int) ≤ 0 ∧ (0 : Int) < (trainLen trainStateW : Int)) →
      ∃ r, trainGetitem trainStateW 0 = Except.ok r) ∧
    (∀ (loader : String → Unit) (e : EvalState Unit Unit) (j : Int),
      evalGetitem loader e j ≠ Except.error PyErr.assertionError)) :=
  ⟨fun _ => rfl, trainGetitem_bounds_assertion trainStateW 0 (fun _ => rfl)⟩

/-- Shared helper: what `buildMeta` guarantees about each produced metadata
entry, positionally and by membership. -/
theorem buildMeta_spec (sp : Int) (names : List String) (ms : List FileMeta)
    (h : buildMeta sp names = some ms) :
    ms.length = names.length ∧
    (∀ m ∈ ms, m.split = sp ∧ m.target = -1) ∧
    (∀ i, ∀ (hi : i < names.length), ∃ m, ms[i]? = some m ∧
      m.name = names[i] ∧ pyInt (names[i].drop 1) = some m.image_num ∧
      m.split = sp ∧ m.target = -1) := by
  induction names generalizing ms with
  | nil =>
    simp only [buildMeta, Option.some.injEq] at h
    subst h
    exact ⟨rfl, by simp, fun i hi => absurd hi (by simp)⟩
  | cons n rest ih =>
    unfold buildMeta at h
    cases hp : pyInt (n.drop 1) with
    | none => rw [hp] at h; cases h
    | some num =>
      cases hb : buildMeta sp rest with
      | none => rw [hp, hb] at h; cases h
      | some ms' =>
        rw [hp, hb] at h
        simp only [Option.some.injEq] at h
        subst h
        obtain ⟨hl, hall, hidx⟩ := ih ms' hb
        refine ⟨by simp [hl], ?_, ?_⟩
        · intro m hm
          rcases List.mem_cons.mp hm with hm1 | hm2
          · subst hm1; exact ⟨rfl, rfl⟩
          · exact hall m hm2
        · intro i hi
          cases i with
          | zero => exact ⟨⟨n, sp, num, -1⟩, by simp, rfl, by simpa using hp, rfl, rfl⟩
          | succ j =>
            have hj : j < rest.length := by simpa using hi
            obtain ⟨m, hm, hname, hnum, hsp, htg⟩ := hidx j hj
            exact ⟨m, by simpa using hm, by simpa using hname,
              by simpa using hnum, hsp, htg⟩

/-- Shared helper: what `read_files` guarantees: the files are exactly the
directory listing, and each metadata entry is built from the corresponding
file's stripped basename. -/
theorem read_files_spec (gip : String → List String) (p : String) (sp : Int)
    (fs : List String) (md : List FileMeta)
    (h : read_files gip p sp = some (fs, md)) :
    fs = gip p ∧ md.length = fs.length ∧
    (∀ m ∈ md, m.split = sp ∧ m.target = -1) ∧
    (∀ i, ∀ (hi : i < fs.length), ∃ m, md[i]? = some m ∧
      m.name = splitextFst (pyBasename fs[i]) ∧
      pyInt (m.name.drop 1) = some m.image_num ∧
      m.split = sp ∧ m.target = -1) := by
  simp only [read_files] at h
  cases hb : buildMeta sp ((gip p).map fun file => splitextFst (pyBasename file)) with
  | none => rw [hb] at h; cases h
  | some ms =>
    rw [hb] at h
    simp only [Option.some.injEq, Prod.mk.injEq] at h
    obtain ⟨hfs, hmd⟩ := h
    subst hfs
    subst hmd
    obtain ⟨hl, hall, hidx⟩ := buildMeta_spec sp _ ms hb
    refine ⟨rfl, by simpa using hl, hall, ?_⟩
    intro i hi
    have hi2 : i < ((gip p).map fun file => splitextFst (pyBasename file)).length := by
      simpa using hi
    obtain ⟨m, hm, hname, hnum, hsp, htg⟩ := hidx i hi2
    refine ⟨m, hm, ?_, ?_, hsp, htg⟩
    · rw [hname, List.getElem_map]
    · rw [hname]
      exact hnum

/-- Shared helper: the state produced by a successful `evalInit` is assembled
from `read_files` on the reference, query, and (when requested) train
directories under `path`, with the ground truth read from `gt_1k.csv`. -/
theorem evalInit_spec {Img GT : Type} (gip : String → List String)
    (rgt : String → GT) (path : String) (transform : Option (Img → Img))
    (include_train : Bool) (qp rp tp gp : Option String) (s : EvalState Img GT)
    (h : evalInit gip rgt path transform include_train qp rp tp gp = some s) :
    ∃ rfp qfp : List String × List FileMeta,
      read_files gip (pyJoin path "references") SPLIT_REF = some rfp ∧
      read_files gip (pyJoin path "final_queries") SPLIT_QUERY = some qfp ∧
      s.gt = rgt (pyJoin path "gt_1k.csv") ∧
      s.transform = transform ∧
      (include_train = false →
        s.files = rfp.1 ++ qfp.1 ∧ s.metadata = rfp.2 ++ qfp.2) ∧
      (include_train = true →
        ∃ tfp : List String × List FileMeta,
          read_files gip (pyJoin path "train") SPLIT_TRAIN = some tfp ∧
          s.files = rfp.1 ++ qfp.1 ++ tfp.1 ∧
          s.metadata = rfp.2 ++ qfp.2 ++ tfp.2) := by
  simp only [evalInit] at h
  cases hr : read_files gip (pyJoin path "references") SPLIT_REF with
  | none => rw [hr] at h; cases h
  | some rfp =>
    obtain ⟨rf, rm⟩ := rfp
    rw [hr] at h
    cases hq : read_files gip (pyJoin path "final_queries") SPLIT_QUERY with
    | none =>
      rw [hq] at h
      cases h
    | some qfp =>
      obtain ⟨qf, qm⟩ := qfp
      rw [hq] at h
      cases hit : include_train with
      | false =>
        rw [hit] at h
        simp only [Bool.false_eq_true, if_false, Option.some.injEq] at h
        subst h
        exact ⟨(rf, rm), (qf, qm), rfl, rfl, rfl, rfl,
          fun _ => ⟨rfl, rfl⟩, fun hc => absurd hc (by simp)⟩
      | true =>
        rw [hit] at h
        simp only [if_true] at h
        cases ht : read_files gip (pyJoin path "train") SPLIT_TRAIN with
        | none => rw [ht] at h; cases h
        | some tfp =>
          obtain ⟨tf, tm⟩ := tfp
          rw [ht] at h
          simp only [Option.some.injEq] at h
          subst h
          exact ⟨(rf, rm), (qf, qm), rfl, rfl, rfl, rfl,
            fun hc => absurd hc (by simp),
            fun _ => ⟨(tf, tm), rfl, rfl, rfl⟩⟩

/-- Shared helper: `DISCEvalDataset.__getitem__` at a nonnegative in-range
index returns a sample whose `instance_id` is the index and whose metadata
fields come from `metadata[idx]`. -/
theorem evalGetitem_ok {Img GT : Type} (ld : String → Img) (e : EvalState Img GT)
    (idx : Int) (hlen : e.metadata.length = e.files.length)
    (h0 : 0 ≤ idx) (h1 : idx < (evalLen e : Int)) :
    ∃ smp, ∃ m, evalGetitem ld e idx = Except.ok smp ∧
      e.metadata[idx.toNat]? = some m ∧
      smp.instance_id = idx ∧ smp.split = m.split ∧ smp.name = m.name ∧
      smp.image_num = m.image_num ∧ smp.target = m.target := by
  have hf : idx.toNat < e.files.length := by
    simp only [evalLen] at h1; omega
  have hm : idx.toNat < e.metadata.length := by omega
  unfold evalGetitem
  rw [pyIndex_ok_of_lt e.files idx h0 hf, exceptBind_ok,
    pyIndex_ok_of_lt e.metadata idx h0 hm, exceptBind_ok]
  exact ⟨_, e.metadata[idx.toNat], rfl, List.getElem?_eq_getElem hm,
    rfl, rfl, rfl, rfl, rfl⟩

/-- Shared helper: a positional file/metadata correspondence carries over
concatenation of aligned file and metadata lists. -/
theorem indexed_parts_append {P : String → FileMeta → Prop}
    (f1 f2 : List String) (m1 m2 : List FileMeta)
    (h1 : m1.length = f1.length) (h2 : m2.length = f2.length)
    (s1 : ∀ i, ∀ (hi : i < f1.length), ∃ m, m1[i]? = some m ∧ P f1[i] m)
    (s2 : ∀ i, ∀ (hi : i < f2.length), ∃ m, m2[i]? = some m ∧ P f2[i] m) :
    ∀ i, ∀ (hi : i < (f1 ++ f2).length),
      ∃ m, (m1 ++ m2)[i]? = some m ∧ P (f1 ++ f2)[i] m := by
  intro i hi
  by_cases hc : i < f1.length
  · obtain ⟨m, hm, hp⟩ := s1 i hc
    refine ⟨m, ?_, ?_⟩
    · rw [List.getElem?_append_left (by omega : i < m1.length)]
      exact hm
    · rw [List.getElem_append_left hc]
      exact hp
  · have hge : f1.length ≤ i := by omega
    have hlt : i - f1.length < f2.length := by
      rw [List.length_append] at hi; omega
    obtain ⟨m, hm, hp⟩ := s2 (i - f1.length) hlt
    refine ⟨m, ?_, ?_⟩
    · rw [List.getElem?_append_right (by omega : m1.length ≤ i), h1]
      exact hm
    · rw [List.getElem_append_right hge]
      exact hp

/-- Claim C6: a successfully constructed `DISCEvalDataset` follows the
on-disk layout convention: its query images are read from
`<path>/final_queries`, its reference images from `<path>/references`, its
training images from `<path>/train` exactly when `include_train` is true,
and its ground truth from `<path>/gt_1k.csv`. -/
theorem evalInit_layout {Img GT : Type} (gip : String → List String)
    (rgt : String → GT) (path : String) (transform : Option (Img → Img))
    (include_train : Bool) (qp rp tp gp : Option String) (s : EvalState Img GT)
    (h : evalInit gip rgt path transform include_train qp rp tp gp = some s) :
    ∃ rfp qfp : List String × List FileMeta,
      read_files gip (pyJoin path "references") SPLIT_REF = some rfp ∧
      read_files gip (pyJoin path "final_queries") SPLIT_QUERY = some qfp ∧
      rfp.1 = gip (pyJoin path "references") ∧
      qfp.1 = gip (pyJoin path "final_queries") ∧
      s.gt = rgt (pyJoin path "gt_1k.csv") ∧
      (include_train = false → s.files = rfp.1 ++ qfp.1) ∧
      (include_train = true →
        ∃ tfp : List String × List FileMeta,
          read_files gip (pyJoin path "train") SPLIT_TRAIN = some tfp ∧
          tfp.1 = gip (pyJoin path "train") ∧
          s.files = rfp.1 ++ qfp.1 ++ tfp.1) := by
  obtain ⟨rfp, qfp, hr, hq, hgt, htr, hF, hT⟩ :=
    evalInit_spec gip rgt path transform include_train qp rp tp gp s h
  have hrf : rfp.1 = gip (pyJoin path "references") :=
    (read_files_spec gip _ SPLIT_REF rfp.1 rfp.2 (by rw [← hr])).1
  have hqf : qfp.1 = gip (pyJoin path "final_queries") :=
    (read_files_spec gip _ SPLIT_QUERY qfp.1 qfp.2 (by rw [← hq])).1
  refine ⟨rfp, qfp, hr, hq, hrf, hqf, hgt, fun hit => (hF hit).1, fun hit => ?_⟩
  obtain ⟨tfp, ht, hsf, _⟩ := hT hit
  have htf : tfp.1 = gip (pyJoin path "train") :=
    (read_files_spec gip _ SPLIT_TRAIN tfp.1 tfp.2 (by rw [← ht])).1
  exact ⟨tfp, ht, htf, hsf⟩

/-- Claim C10: after a successful `DISCEvalDataset.__init__`, `files` and
`metadata` have equal length; the metadata is ordered with all `SPLIT_REF`
entries first, then all `SPLIT_QUERY` entries, then (exactly when
`include_train`) all `SPLIT_TRAIN` entries; each metadata entry's `name` is
the basename of the corresponding file without extension, its `image_num`
is the integer parse of that name with its first character dropped, and its
`target` is `-1`; and `__getitem__(idx)` at an in-range index returns a
sample with `instance_id = idx` whose `split`/`name` come from
`metadata[idx]`. -/
theorem evalInit_metadata_invariants {Img GT : Type} (gip : String → List String)
    (rgt : String → GT) (path : String) (transform : Option (Img → Img))
    (include_train : Bool) (qp rp tp gp : Option String)
    (ld : String → Img) (s : EvalState Img GT)
    (h : evalInit gip rgt path transform include_train qp rp tp gp = some s) :
    s.files.length = s.metadata.length ∧
    (∃ mr mq mt : List FileMeta,
      s.metadata = mr ++ mq ++ mt ∧
      (∀ m ∈ mr, m.split = SPLIT_REF) ∧
      (∀ m ∈ mq, m.split = SPLIT_QUERY) ∧
      (∀ m ∈ mt, m.split = SPLIT_TRAIN) ∧
      (include_train = false → mt = [])) ∧
    (∀ i, ∀ (hi : i < s.files.length), ∃ m, s.metadata[i]? = some m ∧
      m.name = splitextFst (pyBasename s.files[i]) ∧
      pyInt (m.name.drop 1) = some m.image_num ∧
      m.target = -1) ∧
    (∀ idx : Int, 0 ≤ idx → idx < (evalLen s : Int) →
      ∃ smp, ∃ m, evalGetitem ld s idx = Except.ok smp ∧
        s.metadata[idx.toNat]? = some m ∧
        smp.instance_id = idx ∧ smp.split = m.split ∧ smp.name = m.name) := by
  obtain ⟨rfp, qfp, hr, hq, hgt, htr, hF, hT⟩ :=
    evalInit_spec gip rgt path transform include_train qp rp tp gp s h
  obtain ⟨hrf, hrl, hrmem, hridx⟩ := read_files_spec gip _ SPLIT_REF rfp.1 rfp.2 hr
  obtain ⟨hqf, hql, hqmem, hqidx⟩ := read_files_spec gip _ SPLIT_QUERY qfp.1 qfp.2 hq
  have s1 : ∀ i, ∀ (hi : i < rfp.1.length), ∃ m, rfp.2[i]? = some m ∧
      (m.name = splitextFst (pyBasename rfp.1[i]) ∧
       pyInt (m.name.drop 1) = some m.image_num ∧ m.target = -1) := by
    intro i hi
    obtain ⟨m, hm, ha, hb, _, hc⟩ := hridx i hi
    exact ⟨m, hm, ha, hb, hc⟩
  have s2 : ∀ i, ∀ (hi : i < qfp.1.length), ∃ m, qfp.2[i]? = some m ∧
      (m.name = splitextFst (pyBasename qfp.1[i]) ∧
       pyInt (m.name.drop 1) = some m.image_num ∧ m.target = -1) := by
    intro i hi
    obtain ⟨m, hm, ha, hb, _, hc⟩ := hqidx i hi
    exact ⟨m, hm, ha, hb, hc⟩
  cases hit : include_train with
  | false =>
    obtain ⟨hsf, hsm⟩ := hF hit
    have hlen : s.files.length = s.metadata.length := by
      rw [hsf, hsm]
      simp [hrl, hql]
    refine ⟨hlen, ?_, ?_, ?_⟩
    · exact ⟨rfp.2, qfp.2, [], by rw [hsm]; simp,
        fun m hm => (hrmem m hm).1, fun m hm => (hqmem m hm).1,
        fun m hm => absurd hm (List.not_mem_nil m), fun _ => rfl⟩
    · have hall := indexed_parts_append
        (P := fun file m => m.name = splitextFst (pyBasename file) ∧
          pyInt (m.name.drop 1) = some m.image_num ∧ m.target = -1)
        rfp.1 qfp.1 rfp.2 qfp.2 hrl hql s1 s2
      rw [hsf, hsm]
      intro i hi
      obtain ⟨m, hm, ha, hb, hc⟩ := hall i hi
      exact ⟨m, hm, ha, hb, hc⟩
    · intro idx h0 h1
      obtain ⟨smp, m, ha, hb, hc, hd, he, _, _⟩ :=
        evalGetitem_ok ld s idx hlen.symm h0 h1
      exact ⟨smp, m, ha, hb, hc, hd, he⟩
  | true =>
    obtain ⟨tfp, ht, hsf, hsm⟩ := hT hit
    obtain ⟨htf, htl, htmem, htidx⟩ := read_files_spec gip _ SPLIT_TRAIN tfp.1 tfp.2 ht
    have s3 : ∀ i, ∀ (hi : i < tfp.1.length), ∃ m, tfp.2[i]? = some m ∧
        (m.name = splitextFst (pyBasename tfp.1[i]) ∧
         pyInt (m.name.drop 1) = some m.image_num ∧ m.target = -1) := by
      intro i hi
      obtain ⟨m, hm, ha, hb, _, hc⟩ := htidx i hi
      exact ⟨m, hm, ha, hb, hc⟩
    have h12l : (rfp.2 ++ qfp.2).length = (rfp.1 ++ qfp.1).length := by
      simp [hrl, hql]
    have hlen : s.files.length = s.metadata.length := by
      rw [hsf, hsm]
      simp [hrl, hql, htl]
    refine ⟨hlen, ?_, ?_, ?_⟩
    · exact ⟨rfp.2, qfp.2, tfp.2, hsm,
        fun m hm => (hrmem m hm).1, fun m hm => (hqmem m hm).1,
        fun m hm => (htmem m hm).1, fun hc => Bool.noConfusion hc⟩
    · have h12 := indexed_parts_append
        (P := fun file m => m.name = splitextFst (pyBasename file) ∧
          pyInt (m.name.drop 1) = some m.image_num ∧ m.target = -1)
        rfp.1 qfp.1 rfp.2 qfp.2 hrl hql s1 s2
      have hall := indexed_parts_append
        (P := fun file m => m.name = splitextFst (pyBasename file) ∧
          pyInt (m.name.drop 1) = some m.image_num ∧ m.target = -1)
        (rfp.1 ++ qfp.1) tfp.1 (rfp.2 ++ qfp.2) tfp.2 h12l htl h12 s3
      rw [hsf, hsm]
      intro i hi
      obtain ⟨m, hm, ha, hb, hc⟩ := hall i hi
      exact ⟨m, hm, ha, hb, hc⟩
    · intro idx h0 h1
      obtain ⟨smp, m, ha, hb, hc, hd, he, _, _⟩ :=
        evalGetitem_ok ld s idx hlen.symm h0 h1
      exact ⟨smp, m, ha, hb, hc, hd, he⟩

/-- Claim C5 (code bug): in `src/model.py` the `AssertionError` branch of
`Backbone.build` is indeed unreachable for every declared member (every member
carries a handled `Implementation` variant), but `build` does not return a
model for every member: `TIMM_EFFICIENTNET` and `TIMM_MOBILENETV3` are
mislabelled `Implementation.TORCHVISION` while carrying timm model-name
strings, so the torchvision branch calls a string as a constructor and raises
`TypeError`; every other member, and every member of the
`src/sscd/models/model.py` variant, builds a model. -/
theorem backbone_build_dispatch :
    (∀ (b : ModelPy.Backbone) (dims : Nat),
      ModelPy.Backbone.build b dims ≠ Except.error PyErr.assertionError) ∧
    (∀ dims : Nat,
      ModelPy.Backbone.build ModelPy.Backbone.TIMM_EFFICIENTNET dims =
        Except.error PyErr.typeError) ∧
    (∀ dims : Nat,
      ModelPy.Backbone.build ModelPy.Backbone.TIMM_MOBILENETV3 dims =
        Except.error PyErr.typeError) ∧
    (∀ (b : ModelPy.Backbone) (dims : Nat),
      b ≠ ModelPy.Backbone.TIMM_EFFICIENTNET → b ≠ ModelPy.Backbone.TIMM_MOBILENETV3 →
      ∃ m, ModelPy.Backbone.build b dims = Except.ok m) ∧
    (∀ (b : SscdModelPy.Backbone) (dims : Nat),
      SscdModelPy.Backbone.build b dims ≠ Except.error PyErr.assertionError ∧
      ∃ m, SscdModelPy.Backbone.build b dims = Except.ok m) := by
  refine ⟨fun b dims => ?_, fun dims => rfl, fun dims => rfl,
    fun b dims h1 h2 => ?_, fun b dims => ⟨?_, ?_⟩⟩
  · cases b <;> intro hc <;>
      simp [ModelPy.Backbone.build, ModelPy.Backbone.value] at hc
  · cases b <;> first
      | exact ⟨_, rfl⟩
      | exact absurd rfl h1
      | exact absurd rfl h2
  · cases b <;> intro hc <;>
      simp [SscdModelPy.Backbone.build, SscdModelPy.Backbone.value] at hc
  · cases b <;> exact ⟨_, rfl⟩

/-- Claim C7: `Model.add_arguments` registers exactly the "Model" argument
group with `--backbone` (choices exactly the `Backbone` member names, default
`"TV_RESNET18"`), `--dims` (int, default 512) and `--pool_param` (float,
default the integer literal 3), and nothing else — in both `src/model.py`
and `src/sscd/models/model.py`. -/
theorem model_add_arguments_exact :
    (ModelPy.Model.add_arguments.1 = "Model" ∧
     ModelPy.Model.add_arguments.2 =
       [⟨"--backbone", ModelPy.ArgDefault.str "TV_RESNET18",
         some (ModelPy.Backbone.members.map ModelPy.Backbone.name), none⟩,
        ⟨"--dims", ModelPy.ArgDefault.int 512, none, some ModelPy.ArgType.int⟩,
        ⟨"--pool_param", ModelPy.ArgDefault.int 3, none, some ModelPy.ArgType.float⟩] ∧
     (∀ b : ModelPy.Backbone, b ∈ ModelPy.Backbone.members) ∧
     ModelPy.Backbone.members.Nodup ∧
     (ModelPy.Backbone.members.map ModelPy.Backbone.name).length = 13) ∧
    (SscdModelPy.Model.add_arguments.1 = "Model" ∧
     SscdModelPy.Model.add_arguments.2 =
       [⟨"--backbone", ModelPy.ArgDefault.str "TV_RESNET18",
         some (SscdModelPy.Backbone.members.map SscdModelPy.Backbone.name), none⟩,
        ⟨"--dims", ModelPy.ArgDefault.int 512, none, some ModelPy.ArgType.int⟩,
        ⟨"--pool_param", ModelPy.ArgDefault.int 3, none, some ModelPy.ArgType.float⟩] ∧
     (∀ b : SscdModelPy.Backbone, b ∈ SscdModelPy.Backbone.members) ∧
     SscdModelPy.Backbone.members.Nodup ∧
     (SscdModelPy.Backbone.members.map SscdModelPy.Backbone.name).length = 10) := by
  refine ⟨⟨rfl, rfl, fun b => ?_, ?_, rfl⟩, ⟨rfl, rfl, fun b => ?_, ?_, rfl⟩⟩
  · cases b <;> simp [ModelPy.Backbone.members]
  · simp [ModelPy.Backbone.members]
  · cases b <;> simp [SscdModelPy.Backbone.members]
  · simp [SscdModelPy.Backbone.members]

/-- Claim C8: `DISCEvalDataset.__init__` ignores its optional `query_path`,
`ref_path`, `train_path` and `gt_path` parameters: any argument values
produce exactly the same dataset state as leaving them all `None`. -/
theorem evalInit_ignores_explicit_paths {Img GT : Type}
    (get_image_paths : String → List String) (read_ground_truth : String → GT)
    (path : String) (transform : Option (Img → Img)) (include_train : Bool)
    (query_path ref_path train_path gt_path : Option String) :
    evalInit get_image_paths read_ground_truth path transform include_train
      query_path ref_path train_path gt_path =
    evalInit get_image_paths read_ground_truth path transform include_train
      none none none none := rfl

/-- Witness for claim C3 at a concrete input: three rows where only the row
with split 1 is a query and only the row with split 0 is a reference. -/
theorem retrieval_eval_selects_by_split_witness :
    retrieval_eval (α := Int) (β := List String) (γ := Unit)
      (fun _ qn _ rn k g => "knn" :: toString k :: toString g :: qn ++ rn)
      (fun _ qn _ rn n g => "glob" :: toString n :: toString g :: qn ++ rn)
      (fun _ p => ⟨(p.length : ℚ), 1, none⟩) ()
      [100, 200, 300] [7, 8, 9] [1, 0, 2] false 10 false =
      retrieval_eval_splits (α := Int) (β := List String) (γ := Unit)
        (fun _ qn _ rn k g => "knn" :: toString k :: toString g :: qn ++ rn)
        (fun _ qn _ rn n g => "glob" :: toString n :: toString g :: qn ++ rn)
        (fun _ p => ⟨(p.length : ℚ), 1, none⟩) ()
        (selectBySplit [7, 8, 9] [1, 0, 2] SPLIT_QUERY)
        (selectBySplit [100, 200, 300] [1, 0, 2] SPLIT_QUERY)
        (selectBySplit [7, 8, 9] [1, 0, 2] SPLIT_REF)
        (selectBySplit [100, 200, 300] [1, 0, 2] SPLIT_REF) false 10 false ∧
    selectBySplit ([7, 8, 9] : List Int) [1, 0, 2] SPLIT_QUERY = [7] ∧
    selectBySplit ([7, 8, 9] : List Int) [1, 0, 2] SPLIT_REF = [8] := by
  refine ⟨(retrieval_eval_selects_by_split
    (fun _ qn _ rn k g => "knn" :: toString k :: toString g :: qn ++ rn)
    (fun _ qn _ rn n g => "glob" :: toString n :: toString g :: qn ++ rn)
    (fun _ p => ⟨(p.length : ℚ), 1, none⟩) ()
    [100, 200, 300] [7, 8, 9] [1, 0, 2] false 10 false rfl rfl).1, by decide, by decide⟩

/-- Witness for claim C6: at the concrete base path `/d` with listing `gipW`
and without training data, construction succeeds and the layout
characterisation holds. -/
theorem evalInit_layout_witness :
    ∃ rfp qfp : List String × List FileMeta,
      read_files gipW (pyJoin "/d" "references") SPLIT_REF = some rfp ∧
      read_files gipW (pyJoin "/d" "final_queries") SPLIT_QUERY = some qfp ∧
      rfp.1 = gipW (pyJoin "/d" "references") ∧
      qfp.1 = gipW (pyJoin "/d" "final_queries") ∧
      evalStateW.gt = rgtW (pyJoin "/d" "gt_1k.csv") ∧
      (false = false → evalStateW.files = rfp.1 ++ qfp.1) ∧
      (false = true →
        ∃ tfp : List String × List FileMeta,
          read_files gipW (pyJoin "/d" "train") SPLIT_TRAIN = some tfp ∧
          tfp.1 = gipW (pyJoin "/d" "train") ∧
          evalStateW.files = rfp.1 ++ qfp.1 ++ tfp.1) :=
  evalInit_layout gipW rgtW "/d" none false none none none none evalStateW rfl

/-- Witness for claim C10: the metadata invariants at the concretely
constructed dataset `evalStateW`. -/
theorem evalInit_metadata_invariants_witness :
    evalStateW.files.length = evalStateW.metadata.length ∧
    (∃ mr mq mt : List FileMeta,
      evalStateW.metadata = mr ++ mq ++ mt ∧
      (∀ m ∈ mr, m.split = SPLIT_REF) ∧
      (∀ m ∈ mq, m.split = SPLIT_QUERY) ∧
      (∀ m ∈ mt, m.split = SPLIT_TRAIN) ∧
      (false = false → mt = [])) ∧
    (∀ i, ∀ (hi : i < evalStateW.files.length), ∃ m, evalStateW.metadata[i]? = some m ∧
      m.name = splitextFst (pyBasename evalStateW.files[i]) ∧
      pyInt (m.name.drop 1) = some m.image_num ∧
      m.target = -1) ∧
    (∀ idx : Int, 0 ≤ idx → idx < (evalLen evalStateW : Int) →
      ∃ smp, ∃ m, evalGetitem (fun _ => ()) evalStateW idx = Except.ok smp ∧
        evalStateW.metadata[idx.toNat]? = some m ∧
        smp.instance_id = idx ∧ smp.split = m.split ∧ smp.name = m.name) :=
  evalInit_metadata_invariants gipW rgtW "/d" none false none none none none
    (fun _ => ()) evalStateW rfl
